import Mathlib

set_option maxRecDepth 8192

/-!
# LibrIA Telegram Bot — verification of the code-issuance / lookup protocol

Shallow embedding of `src/libria-telegram-bot/src/index.js` (a Cloudflare
worker).  Pure computation (HMAC-SHA-256 derivation, hex rendering, string
normalization) is translated directly; the two request handlers are embedded
as pure functions over an explicit key-value-store state, a millisecond
clock, and a fault model for the external calls that may throw.

External collaborators modeled (they are platform services, not repository
code):
* `crypto.subtle` HMAC-SHA-256 — implemented concretely below (FIPS 180-4 /
  RFC 2104), so every derived code is a real digest value;
* the `TextEncoder` — UTF-8 byte encoding of strings;
* the Cloudflare KV binding (`env.LIBRIA_KV`) — an expiring key-value store:
  `put(key, value, expirationTtl)` records an absolute expiry instant,
  `get(key)` treats an expired entry exactly as an absent one;
* the outbound Telegram `sendMessage` call — recorded as a trace of sent
  messages.
-/

/-! ## SHA-256 (FIPS 180-4), over `Nat` bytes and 32-bit words -/

/-- Truncate to a 32-bit word. -/
def w32 (n : Nat) : Nat := n % 4294967296

/-- Right rotation of a 32-bit word. -/
def rotr (n b : Nat) : Nat := w32 ((b >>> n) ||| (b <<< (32 - n)))

/-- The 64 SHA-256 round constants, written in decimal. -/
def shaK : List Nat :=
  [1116352408, 1899447441, 3049323471, 3921009573, 961987163,
   1508970993, 2453635748, 2870763221, 3624381080, 310598401,
   607225278, 1426881987, 1925078388, 2162078206, 2614888103,
   3248222580, 3835390401, 4022224774, 264347078, 604807628,
   770255983, 1249150122, 1555081692, 1996064986, 2554220882,
   2821834349, 2952996808, 3210313671, 3336571891, 3584528711,
   113926993, 338241895, 666307205, 773529912, 1294757372,
   1396182291, 1695183700, 1986661051, 2177026350, 2456956037,
   2730485921, 2820302411, 3259730800, 3345764771, 3516065817,
   3600352804, 4094571909, 275423344, 430227734, 506948616,
   659060556, 883997877, 958139571, 1322822218, 1537002063,
   1747873779, 1955562222, 2024104815, 2227730452, 2361852424,
   2428436474, 2756734187, 3204031479, 3329325298]

/-- Working state of the compression function: the eight 32-bit registers. -/
structure Hash8 where
  a : Nat
  b : Nat
  c : Nat
  d : Nat
  e : Nat
  f : Nat
  g : Nat
  h : Nat
deriving DecidableEq

/-- Initial hash value H⁽⁰⁾, written in decimal. -/
def shaH0 : Hash8 :=
  ⟨1779033703, 3144134277, 1013904242, 2773480762,
   1359893119, 2600822924, 528734635, 1541459225⟩

/-- σ₀ of the message schedule. -/
def sSigma0 (x : Nat) : Nat := (rotr 7 x) ^^^ (rotr 18 x) ^^^ (x >>> 3)

/-- σ₁ of the message schedule. -/
def sSigma1 (x : Nat) : Nat := (rotr 17 x) ^^^ (rotr 19 x) ^^^ (x >>> 10)

/-- Σ₀ of the compression round. -/
def bSigma0 (x : Nat) : Nat := (rotr 2 x) ^^^ (rotr 13 x) ^^^ (rotr 22 x)

/-- Σ₁ of the compression round. -/
def bSigma1 (x : Nat) : Nat := (rotr 6 x) ^^^ (rotr 11 x) ^^^ (rotr 25 x)

/-- Ch(e,f,g): bitwise choice; ¬e is taken inside 32 bits. -/
def chOp (e f g : Nat) : Nat := (e &&& f) ^^^ ((e ^^^ 4294967295) &&& g)

/-- Maj(a,b,c): bitwise majority. -/
def majOp (a b c : Nat) : Nat := (a &&& b) ^^^ (a &&& c) ^^^ (b &&& c)

/-- One compression round with round constant `k` and schedule word `w`. -/
def roundStep (s : Hash8) (kw : Nat × Nat) : Hash8 :=
  let t1 := w32 (s.h + bSigma1 s.e + chOp s.e s.f s.g + kw.1 + kw.2)
  let t2 := w32 (bSigma0 s.a + majOp s.a s.b s.c)
  ⟨w32 (t1 + t2), s.a, s.b, s.c, w32 (s.d + t1), s.e, s.f, s.g⟩

/-- List lookup with default 0, used for schedule indexing. -/
def nthW (l : List Nat) (i : Nat) : Nat := l.getD i 0

/-- Big-endian 32-bit words from a byte list (groups of 4). -/
def toWordsBE : List Nat → List Nat
  | b0 :: b1 :: b2 :: b3 :: rest =>
      ((((b0 <<< 8) ||| b1) <<< 8 ||| b2) <<< 8 ||| b3) :: toWordsBE rest
  | _ => []

/-- Message schedule: extend the 16 block words to 64. -/
def schedule (block : List Nat) : List Nat :=
  (List.range 48).foldl
    (fun ws _ =>
      let i := ws.length
      ws ++ [w32 (nthW ws (i - 16) + sSigma0 (nthW ws (i - 15)) +
                  nthW ws (i - 7) + sSigma1 (nthW ws (i - 2)))])
    (toWordsBE block)

/-- Compress one 64-byte block into the running hash. -/
def compress (s : Hash8) (block : List Nat) : Hash8 :=
  let t := (List.zip shaK (schedule block)).foldl roundStep s
  ⟨w32 (s.a + t.a), w32 (s.b + t.b), w32 (s.c + t.c), w32 (s.d + t.d),
   w32 (s.e + t.e), w32 (s.f + t.f), w32 (s.g + t.g), w32 (s.h + t.h)⟩

/-- The 8 big-endian bytes of a 64-bit length field. -/
def len64BE (n : Nat) : List Nat :=
  [(n >>> 56) &&& 255, (n >>> 48) &&& 255, (n >>> 40) &&& 255, (n >>> 32) &&& 255,
   (n >>> 24) &&& 255, (n >>> 16) &&& 255, (n >>> 8) &&& 255, n &&& 255]

/-- SHA-256 padding: 0x80, zeros, then the 64-bit bit length, to a multiple of 64 bytes. -/
def padMessage (msg : List Nat) : List Nat :=
  let len := msg.length
  let zeros := (64 - (len + 9) % 64) % 64
  msg ++ [0x80] ++ List.replicate zeros 0 ++ len64BE (len * 8)

/-- The 4 big-endian bytes of a 32-bit word. -/
def word32ToBytesBE (w : Nat) : List Nat :=
  [(w >>> 24) &&& 255, (w >>> 16) &&& 255, (w >>> 8) &&& 255, w &&& 255]

/-- Digest bytes of a final hash state. -/
def hash8ToBytes (s : Hash8) : List Nat :=
  (([s.a, s.b, s.c, s.d, s.e, s.f, s.g, s.h]).map word32ToBytesBE).flatten

/-- SHA-256 of a byte list, as its 32 digest bytes. -/
def sha256Bytes (msg : List Nat) : List Nat :=
  let padded := padMessage msg
  let nBlocks := padded.length / 64
  hash8ToBytes ((List.range nBlocks).foldl
    (fun s i => compress s ((padded.drop (64 * i)).take 64)) shaH0)

/-! ## HMAC-SHA-256 (RFC 2104) -/

/-- HMAC-SHA-256 over byte lists: the digest bytes of
`H((k0 xor opad) ++ H((k0 xor ipad) ++ msg))` with a 64-byte block size. -/
def hmacSha256 (key msg : List Nat) : List Nat :=
  let k0 := if 64 < key.length then sha256Bytes key else key
  let kPad := k0 ++ List.replicate (64 - k0.length) 0
  let ipadKey := kPad.map (fun b => b ^^^ 0x36)
  let opadKey := kPad.map (fun b => b ^^^ 0x5c)
  sha256Bytes (opadKey ++ sha256Bytes (ipadKey ++ msg))

/-! ## Text encoding and hex rendering -/

/-- UTF-8 bytes of one character (the `TextEncoder` encoding). -/
def utf8EncodeChar (c : Char) : List Nat :=
  let n := c.toNat
  if n < 0x80 then [n]
  else if n < 0x800 then
    [0xC0 ||| (n >>> 6), 0x80 ||| (n &&& 0x3F)]
  else if n < 0x10000 then
    [0xE0 ||| (n >>> 12), 0x80 ||| ((n >>> 6) &&& 0x3F), 0x80 ||| (n &&& 0x3F)]
  else
    [0xF0 ||| (n >>> 18), 0x80 ||| ((n >>> 12) &&& 0x3F),
     0x80 ||| ((n >>> 6) &&& 0x3F), 0x80 ||| (n &&& 0x3F)]

/-- UTF-8 bytes of a string (`new TextEncoder().encode(s)`). -/
def strBytes (s : String) : List Nat := (s.data.map utf8EncodeChar).flatten

/-- Lowercase hexadecimal digit, as produced by JS `Number.toString(16)`. -/
def hexDigitLower (n : Nat) : Char :=
  if n < 10 then Char.ofNat (48 + n) else Char.ofNat (87 + n)

/-- The two lowercase hex characters of a byte:
`b.toString(16).padStart(2, <zero>)`. -/
def byteToHexChars (b : Nat) : List Char := [hexDigitLower (b / 16), hexDigitLower (b % 16)]

/-- `calcularFirma(codigo, secret)` from the source: HMAC-SHA-256 with the
UTF-8 bytes of `secret` as key and of `codigo` as message, rendered as
lowercase hex, then `substring(0, 8)` and `toUpperCase()` (JS `toUpperCase`
modeled character-wise by `Char.toUpper`, which agrees on ASCII). -/
def calcularFirma (codigo secret : String) : String :=
  let signature := hmacSha256 (strBytes secret) (strBytes codigo)
  let hashHex := (signature.map byteToHexChars).flatten
  String.mk ((hashHex.take 8).map Char.toUpper)

/-! ## JS string operations

`String.prototype.split(sep)`, `startsWith`, `toUpperCase` modeled over the
character list (structural recursion, so the kernel can evaluate them; the
core `String` loops are compiled primitives).  `split` with a one-character
separator cuts at every occurrence, keeping empty pieces, and yields one
(possibly empty) piece even for the empty string — as in JS. -/

/-- Split a character list at every occurrence of `sep`, keeping empty
pieces; always at least one piece. -/
def splitChars (sep : Char) : List Char → List (List Char)
  | [] => [[]]
  | c :: cs =>
    let rest := splitChars sep cs
    if c = sep then [] :: rest
    else (c :: rest.headD []) :: rest.tail

/-- JS `s.split(sep)` for a one-character separator. -/
def jsSplit (s : String) (sep : Char) : List String :=
  (splitChars sep s.data).map String.mk

/-- JS `s.startsWith(pre)`. -/
def jsStartsWith (s pre : String) : Bool :=
  pre.data.isPrefixOf s.data

/-- JS `s.toUpperCase()`, character-wise (`Char.toUpper` agrees with JS on
ASCII, the alphabet of activation codes). -/
def jsToUpperCase (s : String) : String :=
  String.mk (s.data.map Char.toUpper)

/-! ## Data model: Verification Records and the expiring key-value store

The KV binding is a platform service; it is modeled per its contract (and
the spec's expiring key-value capability): `put` with `expirationTtl`
records an absolute expiry instant, `get` returns the stored value only
while the current time is before that instant — an expired entry is
indistinguishable from an absent one.  The JSON serialization of the stored
object round-trips, so the stored value is modeled as the record itself. -/

/-- The object `JSON.stringify`-ed into KV by the webhook handler. -/
structure StoredRecord where
  chat_id : Int
  firma : String
  timestamp : Nat
deriving DecidableEq

/-- One KV entry: the stored record together with its absolute expiry
instant in milliseconds (put time + `expirationTtl` seconds). -/
structure KVEntry where
  value : StoredRecord
  expiresAt : Nat
deriving DecidableEq

/-- The key-value store: newest binding first (a later `put` of the same
key shadows the older binding, as `find?` stops at the first match). -/
abbrev KVStore := List (String × KVEntry)

/-- `env.LIBRIA_KV.put(key, JSON.stringify(v), expirationTtl := ttl)` at
time `nowMs`: binds `key`, expiring `ttl` seconds later. -/
def kvPut (store : KVStore) (key : String) (v : StoredRecord) (nowMs ttl : Nat) : KVStore :=
  (key, ⟨v, nowMs + ttl * 1000⟩) :: store

/-- `env.LIBRIA_KV.get(key)` at time `nowMs`: the stored value, unless the
key is unbound or its entry has expired. -/
def kvGet (store : KVStore) (key : String) (nowMs : Nat) : Option StoredRecord :=
  match List.find? (fun p => p.1 = key) store with
  | none => none
  | some p => if nowMs < p.2.expiresAt then some p.2.value else none

/-! ## Inbound update and environment -/

/-- The chat-relevant part of a parsed Telegram update body:
`update.message`, with `message.chat.id` and `message.text` (either may be
absent, which the source guards with optional chaining). -/
structure TMessage where
  chatId : Int
  text : Option String
deriving DecidableEq

/-- A parsed webhook body (`await request.json()` succeeded). -/
structure TelegramUpdate where
  message : Option TMessage
deriving DecidableEq

/-- Process-wide configuration: the HMAC secret
(`env.TELEGRAM_SECRET_KEY`; the bot token only affects the outbound URL,
which the trace model does not need). -/
structure Env where
  secret : String

/-- One outbound `sendTelegramMessage` call: chat id, text, and whether the
Markdown parse mode was set. -/
structure SentMessage where
  chatId : Int
  text : String
  markdown : Bool
deriving DecidableEq

/-- `sendTelegramMessage(env, chatId, text, markdown)`: the message the
helper posts to the Telegram API. -/
def sendTelegramMessage (chatId : Int) (text : String) (markdown : Bool) : SentMessage :=
  ⟨chatId, text, markdown⟩

/-- Fault model for the awaited external calls inside the webhook
handler's `try` block: `true` means that call rejects (throws). -/
structure Faults where
  hmacFails : Bool
  putFails : Bool
  sendUsageFails : Bool
  sendConfirmFails : Bool
deriving DecidableEq

/-- All external calls succeed. -/
def noFaults : Faults := ⟨false, false, false, false⟩

/-- Outcome of one webhook request: the transport response (status and
body), the key-value store afterwards, and the trace of chat messages
delivered. -/
structure WebhookResult where
  status : Nat
  body : String
  store : KVStore
  sent : List SentMessage
deriving DecidableEq

/-- The usage-error notification text sent for a `/start` without code. -/
def usageText : String :=
  "❌ Uso incorrecto.\n\nDebes usar: /start CODIGO\nEl código lo obtienes en la app LibrIA."

/-- The confirmation notification text carrying the verification code. -/
def confirmText (firma : String) : String :=
  "✅ Bot activado correctamente\n\nTu código de verificación:\n`" ++ firma ++
  "`\n\nCopia este código y pégalo en la app LibrIA.\n\n⏰ *El código expira en 10 minutos.*"

/-! ## The webhook handler (`handleTelegramWebhook`)

`parsed` is the outcome of `await request.json()`; `Except.error` models a
rejected parse.  A fault at any awaited call throws, the `catch` turns it
into a 500 `Error` response, and nothing past the failure point runs. -/

/-- `handleTelegramWebhook(request, env)`, over a parsed body, the store,
the clock (`Date.now()` in milliseconds) and the fault model. -/
def handleTelegramWebhook (env : Env) (f : Faults) (parsed : Except Unit TelegramUpdate)
    (store : KVStore) (nowMs : Nat) : WebhookResult :=
  match parsed with
  | Except.error _ => ⟨500, "Error", store, []⟩
  | Except.ok update =>
    match update.message with
    | none => ⟨200, "OK", store, []⟩
    | some message =>
      match message.text with
      | none => ⟨200, "OK", store, []⟩
      | some text =>
        if ¬ jsStartsWith text "/start" then ⟨200, "OK", store, []⟩
        else
          let chatId := message.chatId
          let parts := jsSplit text ' '
          if parts.length < 2 then
            if f.sendUsageFails then ⟨500, "Error", store, []⟩
            else ⟨200, "OK", store, [sendTelegramMessage chatId usageText false]⟩
          else
            let codigo := jsToUpperCase (parts.getD 1 "")
            if f.hmacFails then ⟨500, "Error", store, []⟩
            else
              let firma := calcularFirma codigo env.secret
              if f.putFails then ⟨500, "Error", store, []⟩
              else
                let store2 := kvPut store ("codigo:" ++ codigo) ⟨chatId, firma, nowMs⟩ nowMs 600
                if f.sendConfirmFails then ⟨500, "Error", store2, []⟩
                else ⟨200, "OK", store2, [sendTelegramMessage chatId (confirmText firma) true]⟩

/-! ## The lookup handler (`handleGetChatId`) -/

/-- A response from the lookup endpoint: a `Response.json` error body with
its status, or the 200 body `\x7bchat_id, timestamp\x7d` — by construction
the success body carries nothing else (in particular not `firma`). -/
inductive LookupResponse where
  | errorResp (status : Nat) (error : String)
  | okResp (chat_id : Int) (timestamp : Nat)
deriving DecidableEq

/-- HTTP status of a lookup response (`Response.json` defaults to 200). -/
def LookupResponse.status : LookupResponse → Nat
  | errorResp s _ => s
  | okResp _ _ => 200

/-- `handleGetChatId(request, env)`: `codigoParam` is
`url.searchParams.get(<codigo>)` (`none` when the parameter is missing; the
JS falsiness test `!codigo` also catches the empty string).  Returns the
response together with the store afterwards (the handler never writes). -/
def handleGetChatId (codigoParam : Option String) (store : KVStore) (nowMs : Nat) :
    LookupResponse × KVStore :=
  match codigoParam with
  | none => (LookupResponse.errorResp 400 "Falta parámetro: codigo", store)
  | some codigo =>
    if codigo = "" then (LookupResponse.errorResp 400 "Falta parámetro: codigo", store)
    else
      match kvGet store ("codigo:" ++ jsToUpperCase codigo) nowMs with
      | none => (LookupResponse.errorResp 404 "Código no encontrado", store)
      | some parsed => (LookupResponse.okResp parsed.chat_id parsed.timestamp, store)

/-! ## The spec's derivation, stated from its words (for the refinement
claim about `calcularFirma`) -/

/-- Uppercase hexadecimal digit. -/
def hexDigitUpper (n : Nat) : Char :=
  if n < 10 then Char.ofNat (48 + n) else Char.ofNat (55 + n)

/-- The two uppercase hex characters of a byte. -/
def byteToHexCharsUpper (b : Nat) : List Char :=
  [hexDigitUpper (b / 16), hexDigitUpper (b % 16)]

/-- The spec's verification-code derivation, stated from its words:
`HMAC-SHA256(key = server_secret, message = activation_code)`, truncated to
the first 4 bytes, rendered as uppercase hexadecimal. -/
def specVerificationCode (secret activationCode : String) : String :=
  String.mk ((((hmacSha256 (strBytes secret) (strBytes activationCode)).take 4).map
    byteToHexCharsUpper).flatten)

/-! ## Relations and fixtures used by the theorems -/

/-- Two KV entries that agree on key, expiry, `chat_id` and `timestamp` —
they may differ in the stored `firma` field. -/
def entryEqExceptFirma (e1 e2 : String × KVEntry) : Prop :=
  e1.1 = e2.1 ∧ e1.2.expiresAt = e2.2.expiresAt ∧
  e1.2.value.chat_id = e2.2.value.chat_id ∧ e1.2.value.timestamp = e2.2.value.timestamp

/-- Fixture: the spec's sample secret. -/
def env0 : Env := ⟨"s3cr3t"⟩

/-- Fixture: inbound `/start abc123` from chat 42 (the spec's scenario). -/
def update0 : TelegramUpdate := ⟨some ⟨42, some "/start abc123"⟩⟩

/-- Fixture: the store produced by issuing `/start abc123` at t = 1000 ms. -/
def store0 : KVStore := [("codigo:ABC123", ⟨⟨42, "F5C79495", 1000⟩, 601000⟩)]

/-! ## Digest shape lemmas -/

/-- Every byte emitted for a 32-bit word is below 256. -/
theorem mem_word32ToBytesBE_lt (w : Nat) : ∀ b ∈ word32ToBytesBE w, b < 256 := by
  intro b hb
  simp only [word32ToBytesBE, List.mem_cons, List.not_mem_nil, or_false] at hb
  rcases hb with rfl | rfl | rfl | rfl <;>
    exact Nat.lt_succ_of_le Nat.and_le_right

/-- A SHA-256 digest is 32 bytes long. -/
theorem sha256Bytes_length (msg : List Nat) : (sha256Bytes msg).length = 32 := rfl

/-- Every byte of a SHA-256 digest is below 256. -/
theorem sha256Bytes_lt (msg : List Nat) : ∀ b ∈ sha256Bytes msg, b < 256 := by
  intro b hb
  simp only [sha256Bytes, hash8ToBytes, List.mem_flatten, List.mem_map] at hb
  obtain ⟨l, ⟨w, _, rfl⟩, hbl⟩ := hb
  exact mem_word32ToBytesBE_lt w b hbl

/-- An HMAC-SHA-256 tag is 32 bytes long. -/
theorem hmacSha256_length (key msg : List Nat) : (hmacSha256 key msg).length = 32 := rfl

/-- Every byte of an HMAC-SHA-256 tag is below 256. -/
theorem hmacSha256_lt (key msg : List Nat) : ∀ b ∈ hmacSha256 key msg, b < 256 :=
  sha256Bytes_lt _

/-! ## Hex rendering lemmas -/

/-- Taking `2 * k` characters off the hex rendering of a byte list is the
hex rendering of its first `k` bytes. -/
theorem take_two_mul_flatten_hex :
    ∀ (l : List Nat) (k : Nat), k ≤ l.length →
      ((l.map byteToHexChars).flatten).take (2 * k) =
        ((l.take k).map byteToHexChars).flatten := by
  intro l
  induction l with
  | nil =>
    intro k hk
    simp only [List.length_nil, Nat.le_zero] at hk
    subst hk
    simp
  | cons b bs ih =>
    intro k hk
    cases k with
    | zero => simp
    | succ k =>
      have h2 : 2 * (k + 1) = (2 * k) + 1 + 1 := by omega
      simp only [List.map_cons, List.flatten_cons, byteToHexChars, List.take_succ_cons,
        h2, List.cons_append, List.take_succ_cons, List.nil_append]
      have := ih k (by simpa using hk)
      simp only [byteToHexChars] at this
      rw [this]

/-- The hex rendering of a byte list has two characters per byte. -/
theorem length_flatten_hex (l : List Nat) :
    ((l.map byteToHexChars).flatten).length = 2 * l.length := by
  induction l with
  | nil => simp
  | cons b bs ih => simp [byteToHexChars, ih]; omega

/-- The uppercase hex rendering of a byte list also has two characters per
byte. -/
theorem length_flatten_hex_upper (l : List Nat) :
    ((l.map byteToHexCharsUpper).flatten).length = 2 * l.length := by
  induction l with
  | nil => simp
  | cons b bs ih => simp [byteToHexCharsUpper, ih]; omega

/-- Uppercasing a lowercase hex digit gives the uppercase hex digit. -/
theorem hexDigitLower_toUpper : ∀ d, d < 16 → Char.toUpper (hexDigitLower d) = hexDigitUpper d := by
  decide

/-- Uppercasing the hex characters of a byte gives its uppercase hex. -/
theorem byteToHexChars_toUpper (b : Nat) (hb : b < 256) :
    (byteToHexChars b).map Char.toUpper = byteToHexCharsUpper b := by
  have h1 : b / 16 < 16 := by omega
  have h2 : b % 16 < 16 := by omega
  simp [byteToHexChars, byteToHexCharsUpper, hexDigitLower_toUpper _ h1,
    hexDigitLower_toUpper _ h2]

/-- Uppercase hex digits are uppercase-hex characters. -/
theorem hexDigitUpper_mem : ∀ d, d < 16 → hexDigitUpper d ∈ ("0123456789ABCDEF").data := by
  decide

/-! ## C2 — the verification-code derivation -/

/-- C2: for every activation code and secret, `calcularFirma` equals
HMAC-SHA256(key = secret, message = code) truncated to its first 4 bytes and
rendered as exactly 8 uppercase hexadecimal characters; and it is
deterministic — the same code with the same secret always yields the same
verification code. -/
theorem calcularFirma_correct (codigo secret : String) :
    calcularFirma codigo secret = specVerificationCode secret codigo ∧
    (calcularFirma codigo secret).length = 8 ∧
    (∀ ch ∈ (calcularFirma codigo secret).data, ch ∈ ("0123456789ABCDEF").data) ∧
    (∀ c2 s2, codigo = c2 → secret = s2 → calcularFirma codigo secret = calcularFirma c2 s2) := by
  have hlen : (hmacSha256 (strBytes secret) (strBytes codigo)).length = 32 :=
    hmacSha256_length _ _
  have hlt := hmacSha256_lt (strBytes secret) (strBytes codigo)
  have hmain : calcularFirma codigo secret = specVerificationCode secret codigo := by
    simp only [calcularFirma, specVerificationCode]
    have h4 : (4 : Nat) ≤ (hmacSha256 (strBytes secret) (strBytes codigo)).length := by
      rw [hlen]; omega
    rw [show (8 : Nat) = 2 * 4 from rfl, take_two_mul_flatten_hex _ 4 h4, List.map_flatten,
      List.map_map]
    congr 1
    congr 1
    apply List.map_congr_left
    intro b hb
    exact byteToHexChars_toUpper b (hlt b (List.mem_of_mem_take hb))
  refine ⟨hmain, ?_, ?_, fun c2 s2 hc hs => by rw [hc, hs]⟩
  · rw [hmain]
    simp only [specVerificationCode, String.length]
    rw [length_flatten_hex_upper, List.length_take, hlen]
    omega
  · intro ch hch
    rw [hmain] at hch
    simp only [specVerificationCode] at hch
    simp only [String.data, List.mem_flatten, List.mem_map] at hch
    obtain ⟨l, ⟨b, hbmem, rfl⟩, hchl⟩ := hch
    have hb : b < 256 := hlt b (List.mem_of_mem_take hbmem)
    simp only [byteToHexCharsUpper, List.mem_cons, List.not_mem_nil, or_false] at hchl
    rcases hchl with rfl | rfl
    · exact hexDigitUpper_mem _ (by omega)
    · exact hexDigitUpper_mem _ (by omega)

/-- C2 (witness): the spec's sample scenario instantiates every conjunct. -/
theorem calcularFirma_correct_witness :
    calcularFirma "ABC123" "s3cr3t" = specVerificationCode "s3cr3t" "ABC123" ∧
    (calcularFirma "ABC123" "s3cr3t").length = 8 ∧
    'F' ∈ ("0123456789ABCDEF").data ∧
    calcularFirma "ABC123" "s3cr3t" = calcularFirma "ABC123" "s3cr3t" :=
  ⟨(calcularFirma_correct "ABC123" "s3cr3t").1,
   (calcularFirma_correct "ABC123" "s3cr3t").2.1,
   (calcularFirma_correct "ABC123" "s3cr3t").2.2.1 'F' (by decide),
   (calcularFirma_correct "ABC123" "s3cr3t").2.2.2 "ABC123" "s3cr3t" rfl rfl⟩

/-! ## Symbolic evaluation of a valid issuance -/

/-- On a `/start` message with at least a second space-separated token and
no external fault, the webhook handler stores the record under
`codigo:` + uppercased activation code and sends the confirmation. -/
theorem handleTelegramWebhook_issues (env : Env) (chatId : Int) (text : String)
    (store : KVStore) (nowMs : Nat)
    (hstart : jsStartsWith text "/start" = true)
    (hparts : 2 ≤ (jsSplit text ' ').length) :
    handleTelegramWebhook env noFaults (Except.ok ⟨some ⟨chatId, some text⟩⟩) store nowMs =
      ⟨200, "OK",
       ("codigo:" ++ jsToUpperCase ((jsSplit text ' ').getD 1 ""),
        ⟨⟨chatId, calcularFirma (jsToUpperCase ((jsSplit text ' ').getD 1 "")) env.secret, nowMs⟩,
         nowMs + 600 * 1000⟩) :: store,
       [sendTelegramMessage chatId
          (confirmText (calcularFirma (jsToUpperCase ((jsSplit text ' ').getD 1 "")) env.secret))
          true]⟩ := by
  have h2 : ¬ ((jsSplit text ' ').length < 2) := by omega
  simp [handleTelegramWebhook, hstart, h2, noFaults, kvPut]

/-! ## C1 — where the record is keyed, and what the Resolver returns -/

/-- C1 (counterexample): issuing `/start abc123` with secret `s3cr3t`
derives the verification code `F5C79495`, but a Resolver lookup with that
verification code, immediately after issuance and well before expiry,
answers 404 — the record is not keyed by the verification code. -/
theorem c1_counterexample_lookup_by_verification_code :
    calcularFirma "ABC123" "s3cr3t" = "F5C79495" ∧
    (handleTelegramWebhook env0 noFaults (Except.ok update0) [] 1000).status = 200 ∧
    (handleGetChatId (some "F5C79495")
      (handleTelegramWebhook env0 noFaults (Except.ok update0) [] 1000).store 2000).1 =
      LookupResponse.errorResp 404 "Código no encontrado" := by
  decide

/-- C1 (amended): for every valid issuance event, the handler persists the
Verification Record keyed by the uppercased activation code (the
HMAC-derived verification code is stored inside the record, in `firma`), so
a Resolver lookup with the activation code itself, performed before expiry,
returns the chat identifier of the originating event. -/
theorem c1_issue_then_lookup_with_activation_code (env : Env) (chatId : Int) (text : String)
    (store : KVStore) (nowMs now2 : Nat)
    (hstart : jsStartsWith text "/start" = true)
    (hparts : 2 ≤ (jsSplit text ' ').length)
    (hne : (jsSplit text ' ').getD 1 "" ≠ "")
    (hfresh : now2 < nowMs + 600 * 1000) :
    (handleGetChatId (some ((jsSplit text ' ').getD 1 ""))
      (handleTelegramWebhook env noFaults (Except.ok ⟨some ⟨chatId, some text⟩⟩) store nowMs).store
      now2).1 = LookupResponse.okResp chatId nowMs := by
  rw [handleTelegramWebhook_issues env chatId text store nowMs hstart hparts]
  have hne' : (jsSplit text ' ')[1]?.getD "" ≠ "" := by simpa [List.getD] using hne
  simp [handleGetChatId, kvGet, List.find?, hfresh, hne']

/-- C1 (witness): the amended claim at the spec's sample scenario. -/
theorem c1_issue_then_lookup_witness :
    (handleGetChatId (some ((jsSplit "/start abc123" ' ').getD 1 ""))
      (handleTelegramWebhook env0 noFaults
        (Except.ok ⟨some ⟨42, some "/start abc123"⟩⟩) [] 1000).store
      2000).1 = LookupResponse.okResp 42 1000 :=
  c1_issue_then_lookup_with_activation_code env0 42 "/start abc123" [] 1000 2000
    (by decide) (by decide) (by decide) (by decide)

/-! ## C9 — the store key and case-insensitive redemption -/

/-- C9: a valid issuance with activation code `c` stores the record under
`codigo:` + uppercase(`c`) — keyed by the activation code itself — and a
Resolver query whose `codigo` parameter equals `c` in any letter case
returns the original chat identifier and issuance timestamp. -/
theorem c9_store_key_is_activation_code (env : Env) (chatId : Int) (text p : String)
    (store : KVStore) (nowMs now2 : Nat)
    (hstart : jsStartsWith text "/start" = true)
    (hparts : 2 ≤ (jsSplit text ' ').length)
    (hp : p ≠ "")
    (hcase : jsToUpperCase p = jsToUpperCase ((jsSplit text ' ').getD 1 ""))
    (hfresh : now2 < nowMs + 600 * 1000) :
    (handleTelegramWebhook env noFaults (Except.ok ⟨some ⟨chatId, some text⟩⟩) store nowMs).store =
      ("codigo:" ++ jsToUpperCase ((jsSplit text ' ').getD 1 ""),
       ⟨⟨chatId, calcularFirma (jsToUpperCase ((jsSplit text ' ').getD 1 "")) env.secret, nowMs⟩,
        nowMs + 600 * 1000⟩) :: store ∧
    (handleGetChatId (some p)
      (handleTelegramWebhook env noFaults (Except.ok ⟨some ⟨chatId, some text⟩⟩) store nowMs).store
      now2).1 = LookupResponse.okResp chatId nowMs := by
  rw [handleTelegramWebhook_issues env chatId text store nowMs hstart hparts]
  have hcase' : jsToUpperCase p = jsToUpperCase ((jsSplit text ' ')[1]?.getD "") := by
    simpa [List.getD] using hcase
  refine ⟨rfl, ?_⟩
  simp [handleGetChatId, hp, kvGet, List.find?, hcase', hfresh]

/-- C9 (witness): issue `/start abc123`, then query with `ABC123` — a
different letter case than sent — and get the original chat id back. -/
theorem c9_witness :
    (handleTelegramWebhook env0 noFaults (Except.ok update0) [] 1000).store =
      ("codigo:" ++ jsToUpperCase ((jsSplit "/start abc123" ' ').getD 1 ""),
       ⟨⟨42, calcularFirma (jsToUpperCase ((jsSplit "/start abc123" ' ').getD 1 "")) env0.secret,
         1000⟩, 1000 + 600 * 1000⟩) :: [] ∧
    (handleGetChatId (some "ABC123")
      (handleTelegramWebhook env0 noFaults (Except.ok update0) [] 1000).store 2000).1 =
      LookupResponse.okResp 42 1000 :=
  c9_store_key_is_activation_code env0 42 "/start abc123" "ABC123" [] 1000 2000
    (by decide) (by decide) (by decide) (by decide) (by decide)

/-! ## C3 — the lookup endpoint's response contract -/

/-- C3: a GET with missing or empty `codigo` answers 400 with the
structured error body; a present, non-empty parameter with no stored record
under the uppercased code answers 404 with the structured error body;
otherwise 200 with the stored record's `chat_id` and `timestamp`. -/
theorem c3_lookup_endpoint_contract (param : Option String) (store : KVStore) (nowMs : Nat) :
    ((param = none ∨ param = some "") →
      (handleGetChatId param store nowMs).1 =
        LookupResponse.errorResp 400 "Falta parámetro: codigo") ∧
    (∀ p, param = some p → p ≠ "" →
      kvGet store ("codigo:" ++ jsToUpperCase p) nowMs = none →
      (handleGetChatId param store nowMs).1 =
        LookupResponse.errorResp 404 "Código no encontrado") ∧
    (∀ p r, param = some p → p ≠ "" →
      kvGet store ("codigo:" ++ jsToUpperCase p) nowMs = some r →
      (handleGetChatId param store nowMs).1 = LookupResponse.okResp r.chat_id r.timestamp) := by
  refine ⟨?_, ?_, ?_⟩
  · rintro (rfl | rfl) <;> simp [handleGetChatId]
  · rintro p rfl hp hnone
    simp [handleGetChatId, hp, hnone]
  · rintro p r rfl hp hsome
    simp [handleGetChatId, hp, hsome]

/-- C3 (witness): one instance of each of the three response cases. -/
theorem c3_witness :
    (handleGetChatId none [] 0).1 = LookupResponse.errorResp 400 "Falta parámetro: codigo" ∧
    (handleGetChatId (some "ZZZZ") [] 0).1 =
      LookupResponse.errorResp 404 "Código no encontrado" ∧
    (handleGetChatId (some "abc123") store0 2000).1 = LookupResponse.okResp 42 1000 :=
  ⟨(c3_lookup_endpoint_contract none [] 0).1 (Or.inl rfl),
   (c3_lookup_endpoint_contract (some "ZZZZ") [] 0).2.1 "ZZZZ" rfl (by decide) (by decide),
   (c3_lookup_endpoint_contract (some "abc123") store0 2000).2.2 "abc123"
     ⟨42, "F5C79495", 1000⟩ rfl (by decide) (by decide)⟩

/-! ## C4 — `/start` without an activation code argument -/

/-- C4 (counterexample): the inbound text `/start ` (a trailing space, so
there is a second, *empty* token but no non-empty activation code argument)
is not answered with the usage error: the handler writes a record under the
key `codigo:` for the empty code and sends the success confirmation. -/
theorem c4_counterexample_start_trailing_space :
    (handleTelegramWebhook env0 noFaults (Except.ok ⟨some ⟨7, some "/start "⟩⟩) [] 0).store =
      [("codigo:", ⟨⟨7, "3C81CC94", 0⟩, 600000⟩)] ∧
    (handleTelegramWebhook env0 noFaults (Except.ok ⟨some ⟨7, some "/start "⟩⟩) [] 0).sent =
      [sendTelegramMessage 7 (confirmText "3C81CC94") true] := by
  decide

/-- C4 (amended): for every inbound event whose text starts with `/start`
but splits into fewer than two space-separated tokens (no activation code
argument at all — the handler's actual test), the Issuer sends the
usage-error notification to the originating chat, performs no store write,
and returns transport-level 200.  (With a second-but-empty token, as after
a trailing space, the handler instead proceeds to issue for the empty
code.) -/
theorem c4_usage_error_when_no_argument (env : Env) (chatId : Int) (text : String)
    (store : KVStore) (nowMs : Nat)
    (hstart : jsStartsWith text "/start" = true)
    (hparts : (jsSplit text ' ').length < 2) :
    handleTelegramWebhook env noFaults (Except.ok ⟨some ⟨chatId, some text⟩⟩) store nowMs =
      ⟨200, "OK", store, [sendTelegramMessage chatId usageText false]⟩ := by
  simp [handleTelegramWebhook, hstart, hparts, noFaults]

/-- C4 (witness): the bare `/start` command. -/
theorem c4_witness :
    handleTelegramWebhook env0 noFaults (Except.ok ⟨some ⟨7, some "/start"⟩⟩) [] 0 =
      ⟨200, "OK", [], [sendTelegramMessage 7 usageText false]⟩ :=
  c4_usage_error_when_no_argument env0 7 "/start" [] 0 (by decide) (by decide)

/-! ## C5 — fixed TTL and expiry behaving as absence -/

/-- C5: every Verification Record is written with `expirationTtl = 600`
seconds (the stored entry expires exactly 600 000 ms after issuance), and a
lookup performed at or after that instant returns the very response a
lookup against an empty (never-issued) store returns — the expired record
is treated as absent. -/
theorem c5_ttl_and_expired_is_absent (env : Env) (chatId : Int) (text : String)
    (store : KVStore) (nowMs : Nat)
    (hstart : jsStartsWith text "/start" = true)
    (hparts : 2 ≤ (jsSplit text ' ').length) :
    (handleTelegramWebhook env noFaults (Except.ok ⟨some ⟨chatId, some text⟩⟩) store nowMs).store =
      ("codigo:" ++ jsToUpperCase ((jsSplit text ' ').getD 1 ""),
       ⟨⟨chatId, calcularFirma (jsToUpperCase ((jsSplit text ' ').getD 1 "")) env.secret, nowMs⟩,
        nowMs + 600 * 1000⟩) :: store ∧
    (∀ p now2, nowMs + 600 * 1000 ≤ now2 →
      (handleGetChatId (some p)
        (handleTelegramWebhook env noFaults (Except.ok ⟨some ⟨chatId, some text⟩⟩) [] nowMs).store
        now2).1 =
      (handleGetChatId (some p) ([] : KVStore) now2).1) := by
  refine ⟨by rw [handleTelegramWebhook_issues env chatId text store nowMs hstart hparts], ?_⟩
  intro p now2 hexp
  rw [handleTelegramWebhook_issues env chatId text [] nowMs hstart hparts]
  by_cases hp : p = ""
  · subst hp; simp [handleGetChatId]
  · have hnot : ¬ (now2 < nowMs + 600 * 1000) := by omega
    by_cases hk :
        "codigo:" ++ jsToUpperCase ((jsSplit text ' ')[1]?.getD "") =
          "codigo:" ++ jsToUpperCase p
    · simp [handleGetChatId, hp, kvGet, List.find?, hk, hnot]
    · simp [handleGetChatId, hp, kvGet, List.find?, hk]

/-- C5 (witness): the issued record of `/start abc123` carries expiry
601 000 ms, and a lookup with the activation code at expiry time answers
exactly as on the empty store. -/
theorem c5_witness :
    (handleTelegramWebhook env0 noFaults (Except.ok update0) [] 1000).store =
      ("codigo:" ++ jsToUpperCase ((jsSplit "/start abc123" ' ').getD 1 ""),
       ⟨⟨42, calcularFirma (jsToUpperCase ((jsSplit "/start abc123" ' ').getD 1 "")) env0.secret,
         1000⟩, 1000 + 600 * 1000⟩) :: [] ∧
    (handleGetChatId (some "abc123")
      (handleTelegramWebhook env0 noFaults (Except.ok update0) [] 1000).store 601000).1 =
    (handleGetChatId (some "abc123") ([] : KVStore) 601000).1 :=
  ⟨(c5_ttl_and_expired_is_absent env0 42 "/start abc123" [] 1000 (by decide) (by decide)).1,
   (c5_ttl_and_expired_is_absent env0 42 "/start abc123" [] 1000 (by decide) (by decide)).2
     "abc123" 601000 (by decide)⟩

/-! ## C6 — exceptions are caught: 500, no notification -/

/-- C6: the webhook handler never escapes abnormally — a failed body parse
is answered 500 with nothing sent and the store untouched; every response is
transport-level 200 or 500; whenever the response is 500 no chat
notification was delivered; on the issuance path a throwing hash, store
write, or outbound confirmation call yields 500; and on the
malformed-command path a throwing usage-error send yields 500 as well. -/
theorem c6_webhook_catches_errors (env : Env) (f : Faults) (parsed : Except Unit TelegramUpdate)
    (store : KVStore) (nowMs : Nat) :
    (∀ e, handleTelegramWebhook env f (Except.error e) store nowMs = ⟨500, "Error", store, []⟩) ∧
    ((handleTelegramWebhook env f parsed store nowMs).status = 200 ∨
     (handleTelegramWebhook env f parsed store nowMs).status = 500) ∧
    ((handleTelegramWebhook env f parsed store nowMs).status = 500 →
      (handleTelegramWebhook env f parsed store nowMs).sent = []) ∧
    (∀ u m text, parsed = Except.ok u → u.message = some m → m.text = some text →
      jsStartsWith text "/start" = true → 2 ≤ (jsSplit text ' ').length →
      (f.hmacFails = true ∨ f.putFails = true ∨ f.sendConfirmFails = true) →
      (handleTelegramWebhook env f parsed store nowMs).status = 500) ∧
    (∀ u m text, parsed = Except.ok u → u.message = some m → m.text = some text →
      jsStartsWith text "/start" = true → (jsSplit text ' ').length < 2 →
      f.sendUsageFails = true →
      (handleTelegramWebhook env f parsed store nowMs).status = 500) := by
  have h23 : ∀ (p : Except Unit TelegramUpdate),
      ((handleTelegramWebhook env f p store nowMs).status = 200 ∨
       (handleTelegramWebhook env f p store nowMs).status = 500) ∧
      ((handleTelegramWebhook env f p store nowMs).status = 500 →
        (handleTelegramWebhook env f p store nowMs).sent = []) := by
    intro p
    rcases p with e | u
    · simp [handleTelegramWebhook]
    · rcases u with ⟨_ | ⟨cid, _ | text⟩⟩
      · simp [handleTelegramWebhook]
      · simp [handleTelegramWebhook]
      · by_cases hst : jsStartsWith text "/start" = true
        · by_cases hlen : (jsSplit text ' ').length < 2
          · by_cases hu : f.sendUsageFails = true
            · simp [handleTelegramWebhook, hst, hlen, hu]
            · simp only [Bool.not_eq_true] at hu
              simp [handleTelegramWebhook, hst, hlen, hu]
          · by_cases h1 : f.hmacFails = true
            · simp [handleTelegramWebhook, hst, hlen, h1]
            · simp only [Bool.not_eq_true] at h1
              by_cases h2 : f.putFails = true
              · simp [handleTelegramWebhook, hst, hlen, h1, h2]
              · simp only [Bool.not_eq_true] at h2
                by_cases h3 : f.sendConfirmFails = true
                · simp [handleTelegramWebhook, hst, hlen, h1, h2, h3]
                · simp only [Bool.not_eq_true] at h3
                  simp [handleTelegramWebhook, hst, hlen, h1, h2, h3]
        · simp only [Bool.not_eq_true] at hst
          simp [handleTelegramWebhook, hst]
  refine ⟨fun e => rfl, (h23 parsed).1, (h23 parsed).2, ?_, ?_⟩
  · rintro u m text rfl hm ht hst hlen hf
    rcases u with ⟨umsg⟩
    simp only at hm
    subst hm
    rcases m with ⟨cid, mtext⟩
    simp only at ht
    subst ht
    have hlen' : ¬ ((jsSplit text ' ').length < 2) := by omega
    rcases hf with h1 | h2 | h3
    · simp [handleTelegramWebhook, hst, hlen', h1]
    · by_cases h1 : f.hmacFails = true
      · simp [handleTelegramWebhook, hst, hlen', h1]
      · simp only [Bool.not_eq_true] at h1
        simp [handleTelegramWebhook, hst, hlen', h1, h2]
    · by_cases h1 : f.hmacFails = true
      · simp [handleTelegramWebhook, hst, hlen', h1]
      · simp only [Bool.not_eq_true] at h1
        by_cases h2 : f.putFails = true
        · simp [handleTelegramWebhook, hst, hlen', h1, h2]
        · simp only [Bool.not_eq_true] at h2
          simp [handleTelegramWebhook, hst, hlen', h1, h2, h3]
  · rintro u m text rfl hm ht hst hlen hu
    rcases u with ⟨umsg⟩
    simp only at hm
    subst hm
    rcases m with ⟨cid, mtext⟩
    simp only at ht
    subst ht
    simp [handleTelegramWebhook, hst, hlen, hu]

/-- C6 (witness): a throwing store write on a valid issuance, and a
throwing usage-error send on a bare `/start`, are both caught and answered
500, with no chat notification going out. -/
theorem c6_witness :
    handleTelegramWebhook env0 ⟨false, true, false, false⟩ (Except.error ()) [] 0 =
      ⟨500, "Error", [], []⟩ ∧
    ((handleTelegramWebhook env0 ⟨false, true, false, false⟩ (Except.ok update0) [] 0).status = 200 ∨
     (handleTelegramWebhook env0 ⟨false, true, false, false⟩ (Except.ok update0) [] 0).status = 500) ∧
    (handleTelegramWebhook env0 ⟨false, true, false, false⟩ (Except.ok update0) [] 0).status = 500 ∧
    (handleTelegramWebhook env0 ⟨false, false, true, false⟩
      (Except.ok ⟨some ⟨7, some "/start"⟩⟩) [] 0).status = 500 :=
  ⟨(c6_webhook_catches_errors env0 ⟨false, true, false, false⟩ (Except.ok update0) [] 0).1 (),
   (c6_webhook_catches_errors env0 ⟨false, true, false, false⟩ (Except.ok update0) [] 0).2.1,
   (c6_webhook_catches_errors env0 ⟨false, true, false, false⟩ (Except.ok update0) [] 0).2.2.2.1
     update0 ⟨42, some "/start abc123"⟩ "/start abc123" rfl rfl rfl (by decide) (by decide)
     (Or.inr (Or.inl rfl)),
   (c6_webhook_catches_errors env0 ⟨false, false, true, false⟩
      (Except.ok ⟨some ⟨7, some "/start"⟩⟩) [] 0).2.2.2.2
     ⟨some ⟨7, some "/start"⟩⟩ ⟨7, some "/start"⟩ "/start" rfl rfl rfl (by decide) (by decide)
     rfl⟩

/-! ## C7 — the Resolver has no side effects -/

/-- C7: a lookup leaves the store exactly as it was, and a repeated lookup
of the same code at the same instant returns the same response — redemption
does not consume or invalidate the record. -/
theorem c7_resolver_no_side_effects (param : Option String) (store : KVStore) (nowMs : Nat) :
    (handleGetChatId param store nowMs).2 = store ∧
    (handleGetChatId param ((handleGetChatId param store nowMs).2) nowMs).1 =
      (handleGetChatId param store nowMs).1 := by
  have h2 : ∀ (pm : Option String) (st : KVStore) (t : Nat), (handleGetChatId pm st t).2 = st := by
    intro pm st t
    rcases pm with _ | p
    · rfl
    · by_cases hp : p = ""
      · simp [handleGetChatId, hp]
      · cases hg : kvGet st ("codigo:" ++ jsToUpperCase p) t <;>
          simp [handleGetChatId, hp, hg]
  exact ⟨h2 param store nowMs, by rw [h2 param store nowMs]⟩

/-! ## C8 — non-`/start` traffic is acknowledged without effects -/

/-- C8 (counterexample): a message that does not start with `/start` is
acknowledged with 200 and no store write or notification, but the
acknowledgment body is the literal `OK`, not empty. -/
theorem c8_counterexample_body_not_empty :
    (handleTelegramWebhook env0 noFaults (Except.ok ⟨some ⟨7, some "hola"⟩⟩) [] 5).status = 200 ∧
    (handleTelegramWebhook env0 noFaults (Except.ok ⟨some ⟨7, some "hola"⟩⟩) [] 5).store = [] ∧
    (handleTelegramWebhook env0 noFaults (Except.ok ⟨some ⟨7, some "hola"⟩⟩) [] 5).sent = [] ∧
    ¬ ((handleTelegramWebhook env0 noFaults (Except.ok ⟨some ⟨7, some "hola"⟩⟩) [] 5).body = "") := by
  decide

/-- C8 (amended): for every parsed webhook body that does not contain a
message whose text begins with `/start`, the handler performs no store
write, sends no notification, and returns a 200 acknowledgment whose body
is the literal `OK` (not empty). -/
theorem c8_non_start_acknowledged (env : Env) (f : Faults) (u : TelegramUpdate)
    (store : KVStore) (nowMs : Nat)
    (h : ∀ m text, u.message = some m → m.text = some text →
      jsStartsWith text "/start" = false) :
    handleTelegramWebhook env f (Except.ok u) store nowMs = ⟨200, "OK", store, []⟩ := by
  rcases u with ⟨_ | ⟨cid, _ | text⟩⟩
  · rfl
  · rfl
  · have hst := h ⟨cid, some text⟩ text rfl rfl
    simp [handleTelegramWebhook, hst]

/-- C8 (witness): a plain greeting is acknowledged with `OK`, 200, and no
effects. -/
theorem c8_witness :
    handleTelegramWebhook env0 noFaults (Except.ok ⟨some ⟨7, some "hola"⟩⟩) [] 5 =
      ⟨200, "OK", [], []⟩ :=
  c8_non_start_acknowledged env0 noFaults ⟨some ⟨7, some "hola"⟩⟩ [] 5
    (fun m text hm ht => by
      simp only [Option.some.injEq] at hm
      subst hm
      simp only [Option.some.injEq] at ht
      subst ht
      decide)

/-! ## C10 — the Resolver never exposes the stored `firma` -/

/-- Lookups in two stores related entrywise up to `firma` either both miss
or find related entries. -/
theorem find?_entryEqExceptFirma {s1 s2 : KVStore}
    (h : List.Forall₂ entryEqExceptFirma s1 s2) (k : String) :
    (List.find? (fun p => p.1 = k) s1 = none ∧ List.find? (fun p => p.1 = k) s2 = none) ∨
    (∃ a b, List.find? (fun p => p.1 = k) s1 = some a ∧
      List.find? (fun p => p.1 = k) s2 = some b ∧ entryEqExceptFirma a b) := by
  induction h with
  | nil => exact Or.inl ⟨rfl, rfl⟩
  | @cons a b l1 l2 hab htail ih =>
    by_cases hk : a.1 = k
    · refine Or.inr ⟨a, b, ?_, ?_, hab⟩
      · simp [List.find?_cons_of_pos, hk]
      · have hbk : b.1 = k := hab.1 ▸ hk
        simp [List.find?_cons_of_pos, hbk]
    · have hbk : ¬ (b.1 = k) := fun hc => hk (hab.1 ▸ hc)
      rcases ih with ⟨h1, h2⟩ | ⟨c, d, h1, h2, hcd⟩
      · exact Or.inl ⟨by simp [List.find?_cons_of_neg, hk, h1],
          by simp [List.find?_cons_of_neg, hbk, h2]⟩
      · exact Or.inr ⟨c, d, by simp [List.find?_cons_of_neg, hk, h1],
          by simp [List.find?_cons_of_neg, hbk, h2], hcd⟩

/-- C10: the Resolver's response is built from `chat_id` and `timestamp`
only — for any two stores whose entries agree except possibly on the stored
`firma` field, every lookup returns the identical response, so the stored
HMAC signature is never exposed. -/
theorem c10_resolver_ignores_firma (s1 s2 : KVStore) (param : Option String) (nowMs : Nat)
    (h : List.Forall₂ entryEqExceptFirma s1 s2) :
    (handleGetChatId param s1 nowMs).1 = (handleGetChatId param s2 nowMs).1 := by
  rcases param with _ | p
  · rfl
  · by_cases hp : p = ""
    · simp [handleGetChatId, hp]
    · rcases find?_entryEqExceptFirma h ("codigo:" ++ jsToUpperCase p) with
        ⟨h1, h2⟩ | ⟨a, b, h1, h2, hab⟩
      · simp [handleGetChatId, hp, kvGet, h1, h2]
      · obtain ⟨hkey, hexp, hcid, hts⟩ := hab
        by_cases hfresh : nowMs < a.2.expiresAt
        · have hfresh2 : nowMs < b.2.expiresAt := hexp ▸ hfresh
          simp [handleGetChatId, hp, kvGet, h1, h2, hfresh, hfresh2, hcid, hts]
        · have hfresh2 : ¬ (nowMs < b.2.expiresAt) := hexp ▸ hfresh
          simp [handleGetChatId, hp, kvGet, h1, h2, hfresh, hfresh2]

/-- C10 (witness): two stores differing only in the stored `firma` answer
the same lookup identically. -/
theorem c10_witness :
    (handleGetChatId (some "abc123") store0 2000).1 =
    (handleGetChatId (some "abc123")
      [("codigo:ABC123", ⟨⟨42, "00000000", 1000⟩, 601000⟩)] 2000).1 :=
  c10_resolver_ignores_firma store0
    [("codigo:ABC123", ⟨⟨42, "00000000", 1000⟩, 601000⟩)] (some "abc123") 2000
    (List.Forall₂.cons ⟨rfl, rfl, rfl, rfl⟩ List.Forall₂.nil)
